import Mathlib

/-!
Verification of the rust-sdk client library for the clearing-house program
(`src/rust-sdk`). The definitions below are a shallow embedding of the
source files; theorems settle the specification claims against them.
-/

namespace DriftSdk

/-- Addresses (`solana_sdk::pubkey::Pubkey`) are opaque 32-byte identifiers;
modelled as natural numbers. -/
abbrev Pubkey := Nat

/-- Raw account byte blobs. -/
abbrev Bytes := List Nat

/-- Embedding of `DriftError` (src/rust-sdk/src/sdk_core/error.rs, lines 7-15).
The enum has exactly three variants: `ClientError` (wrapping a transport
error, modelled by an opaque cause id), `AccountDeserializationError`
(wrapping the anchor deserialization `ProgramError`, opaque cause id) and
`AccountCannotBeInitialized`. -/
inductive DriftError
  | ClientError (cause : Nat)
  | AccountDeserializationError (cause : Nat)
  | AccountCannotBeInitialized (name : String) (reason : String)
deriving DecidableEq, Repr

/-- Outcome of running a fallible Rust code path: a normal value, a
structured `DriftError`, or a panic (`unwrap` on a failure / out-of-bounds
indexing). -/
inductive Outcome (α : Type)
  | ok (a : α)
  | err (e : DriftError)
  | panic
deriving DecidableEq, Repr

/-- Trace of the transport retry loop inside
`DriftRpcClient::get_account_data` (src/rust-sdk/src/sdk_core/util.rs,
lines 27-40): the final transport result (`bytes.unwrap()?`), the number of
transport calls made, and the list of sleep durations (seconds) performed. -/
structure FetchTrace where
  result : Except Nat Bytes
  calls : Nat
  sleeps : List Nat

/-- The `while retry < 3` loop of `DriftRpcClient::get_account_data`
(src/rust-sdk/src/sdk_core/util.rs, lines 27-40), with the flaky transport
modelled as a function from attempt number to that attempt's result.
Each iteration calls the transport once; on success it breaks with the
bytes; on failure it increments `retry` and sleeps 4 seconds (the sleep
runs after every failed attempt, including the last). After the loop the
last stored result is surfaced. -/
def fetch_bytes_with_retry (attempt : Nat → Except Nat Bytes) : FetchTrace :=
  match attempt 0 with
  | .ok b => ⟨.ok b, 1, []⟩
  | .error _ =>
    match attempt 1 with
    | .ok b => ⟨.ok b, 2, [4]⟩
    | .error _ =>
      match attempt 2 with
      | .ok b => ⟨.ok b, 3, [4, 4]⟩
      | .error e2 => ⟨.error e2, 3, [4, 4, 4]⟩

/-- Trace of a full typed remote read: result, transport calls, sleeps, and
the number of decode attempts performed. -/
structure ReadTrace (T : Type) where
  result : Except DriftError T
  calls : Nat
  sleeps : List Nat
  decodes : Nat

/-- Embedding of `DriftRpcClient::get_account_data::<T>`
(src/rust-sdk/src/sdk_core/util.rs, lines 23-43): run the bounded retry
loop for the raw bytes; a transport exhaustion surfaces the last transport
error (wrapped as `DriftError::ClientError` by the `?` conversion); on
transport success, `T::try_deserialize` runs exactly once and its failure
is surfaced as `DriftError::AccountDeserializationError` without any
retry. The discriminator-checked decoder is modelled as a function from
bytes to a result. -/
def get_account_data {T : Type} (attempt : Nat → Except Nat Bytes)
    (decode : Bytes → Except Nat T) : ReadTrace T :=
  match fetch_bytes_with_retry attempt with
  | ⟨.error e, c, s⟩ => ⟨.error (.ClientError e), c, s, 0⟩
  | ⟨.ok b, c, s⟩ =>
    match decode b with
    | .ok t => ⟨.ok t, c, s, 1⟩
    | .error p => ⟨.error (.AccountDeserializationError p), c, s, 1⟩

/-- C5: a typed remote read performs at most three transport attempts, all
sleeps between failed attempts are exactly 4 seconds, the last transport
error is surfaced when all attempts fail (with no decode attempted), and a
decode runs exactly once after a successful transport read, its failure
surfaced without retry. -/
theorem C5_remote_read_retry_policy {T : Type} (attempt : Nat → Except Nat Bytes)
    (decode : Bytes → Except Nat T) :
    (get_account_data attempt decode).calls ≤ 3
    ∧ (∀ d, d ∈ (get_account_data attempt decode).sleeps → d = 4)
    ∧ (get_account_data attempt decode).decodes ≤ 1
    ∧ (get_account_data attempt decode).calls = (fetch_bytes_with_retry attempt).calls
    ∧ (∀ e0 e1 e2, attempt 0 = Except.error e0 → attempt 1 = Except.error e1 →
        attempt 2 = Except.error e2 →
        (get_account_data attempt decode).result
            = Except.error (DriftError.ClientError e2)
        ∧ (get_account_data attempt decode).decodes = 0)
    ∧ (∀ b, (fetch_bytes_with_retry attempt).result = Except.ok b →
        (get_account_data attempt decode).decodes = 1
        ∧ (∀ p, decode b = Except.error p →
            (get_account_data attempt decode).result
              = Except.error (DriftError.AccountDeserializationError p))) := by
  refine ⟨?_, ?_, ?_, ?_, ?_, ?_⟩ <;>
    · unfold get_account_data fetch_bytes_with_retry
      cases h0 : attempt 0 <;> cases h1 : attempt 1 <;> cases h2 : attempt 2 <;>
        simp_all <;> (try split) <;> simp_all

/-- Witness for C5 at a transport that always fails with cause 7: the read
surfaces the last transport error and never decodes. -/
theorem C5_remote_read_retry_policy_witness :
    (get_account_data (fun _ => Except.error 7)
        (fun _ => Except.ok (0 : Nat))).result
      = Except.error (DriftError.ClientError 7)
    ∧ (get_account_data (fun _ => Except.error 7)
        (fun _ => Except.ok (0 : Nat))).decodes = 0 := by
  have h := C5_remote_read_retry_policy (T := Nat) (fun _ => Except.error 7)
    (fun _ => Except.ok (0 : Nat))
  exact h.2.2.2.2.1 7 7 7 rfl rfl rfl

/-- Embedding of `WebSocketAccountSubscriber<T>`
(src/rust-sdk/src/sdk_core/account.rs, lines 293-300, and the identical
struct in src/rust-sdk/src/default.rs, lines 258-265): an account cache
handle owning one address, a diagnostic label, an optional live
subscription (modelled by an opaque channel id) and an optional cached
decoded value. -/
structure Handle (T : Type) where
  pubkey : Pubkey
  name : String
  subscription : Option Nat
  data : Option T
deriving DecidableEq, Repr

/-- Result of one `get_data` call: the returned value (or error/panic), the
number of remote reads performed, and the handle state afterwards. -/
structure GetDataResult (T : Type) where
  result : Outcome T
  reads : Nat
  handle : Handle T
deriving DecidableEq, Repr

/-- Embedding of `WebSocketAccountSubscriber::get_data`
(src/rust-sdk/src/sdk_core/account.rs, lines 333-339; same logic in
src/rust-sdk/src/default.rs, lines 299-305): if `force` is set or no value
is cached, call the typed remote read and on success replace the cache (a
failed read propagates via `?` leaving the cache untouched); otherwise
serve the cached value with no remote call. The final
`Ref::map(..., unwrap)` panics only when the cache is empty at that point,
which the guard makes unreachable. The typed remote read result is
modelled as a parameter. -/
def Handle.get_data {T : Type} (h : Handle T) (client_read : Except DriftError T)
    (force : Bool) : GetDataResult T :=
  if force || h.data.isNone then
    match client_read with
    | .ok t => ⟨.ok t, 1, { h with data := some t }⟩
    | .error e => ⟨.err e, 1, h⟩
  else
    match h.data with
    | some t => ⟨.ok t, 0, h⟩
    | none => ⟨.panic, 0, h⟩

/-- Embedding of `WebSocketAccountSubscriber::subscribe`
(src/rust-sdk/src/sdk_core/account.rs, lines 303-313; same logic in
src/rust-sdk/src/default.rs, lines 268-277): `ws_sub` opens the channel;
its failure propagates via `?` before the subscription marker is replaced,
while on success the marker is set. The channel-open result is modelled as
a parameter. -/
def Handle.subscribe {T : Type} (h : Handle T) (ws_open : Except Nat Nat) :
    Except Nat Unit × Handle T :=
  match ws_open with
  | .ok sub => (.ok (), { h with subscription := some sub })
  | .error e => (.error e, h)

/-- Outcome of the handle-level unsubscribe call: a normal return, the
propagated channel error (opaque cause), or a panic. -/
inductive UnsubOutcome
  | ok
  | err (cause : Nat)
  | panic
deriving DecidableEq, Repr

/-- Embedding of `WebSocketAccountSubscriber::unsubscribe`
(src/rust-sdk/src/sdk_core/account.rs, lines 315-323; same logic in
src/rust-sdk/src/default.rs, lines 279-289). The `Ref` produced by
`self.subscription.borrow()` in the match scrutinee stays live for the
whole match expression. With no subscription the call is a trivial
success. With a live subscription, `send_unsubscribe` runs; on its
failure `and_then` short-circuits, leaving the marker set; on its success
the `and_then` closure calls `self.subscription.replace_with(|_| None)`
while the shared `Ref` is still outstanding, which panics with a
`BorrowMutError` — so the marker is never actually cleared. The remote
unsubscribe request is modelled as a function of the channel id. -/
def Handle.unsubscribe {T : Type} (h : Handle T)
    (send_unsub : Nat → Except Nat Unit) : UnsubOutcome × Handle T :=
  match h.subscription with
  | some sub =>
    match send_unsub sub with
    | .ok _ => (.panic, h)
    | .error e => (.err e, h)
  | none => (.ok, h)

/-- Embedding of `WebSocketAccountSubscriber::is_subscribed`
(src/rust-sdk/src/sdk_core/account.rs, lines 325-327). -/
def Handle.is_subscribed {T : Type} (h : Handle T) : Bool :=
  h.subscription.isSome

/-- C4: `get_data(force=true)` always performs a remote read and (when the
read succeeds) replaces the cached value even when one is already cached,
returning the fresh value; `get_data(force=false)` with a cached value
performs no remote read and returns the cached value with the handle
unchanged; `get_data(force=false)` with an empty cache performs a remote
read. -/
theorem C4_get_data_force_semantics {T : Type} (h : Handle T)
    (client_read : Except DriftError T) :
    ((h.get_data client_read true).reads = 1)
    ∧ (∀ t, client_read = Except.ok t →
        (h.get_data client_read true).handle.data = some t
        ∧ (h.get_data client_read true).result = Outcome.ok t)
    ∧ (∀ v, h.data = some v →
        h.get_data client_read false = ⟨Outcome.ok v, 0, h⟩)
    ∧ (h.data = none → (h.get_data client_read false).reads = 1) := by
  refine ⟨?_, ?_, ?_, ?_⟩ <;>
    · unfold Handle.get_data
      cases client_read <;> simp_all

/-- Witness for C4 at a handle caching value 7 and a remote read returning
42: a forced read replaces the cache with 42, a non-forced read serves the
cached 7 with no network call. -/
theorem C4_get_data_force_semantics_witness :
    ((Handle.mk 5 "State" none (some 7)).get_data (Except.ok 42) true).handle.data
        = some 42
    ∧ (Handle.mk 5 "State" none (some 7)).get_data (Except.ok 42) false
        = ⟨Outcome.ok 7, 0, Handle.mk 5 "State" none (some 7)⟩ := by
  have h := C4_get_data_force_semantics (Handle.mk 5 "State" none (some 7))
    (Except.ok 42)
  exact ⟨(h.2.1 42 rfl).1, h.2.2.1 7 rfl⟩

/-- C10: evaluation at the failing input — a handle with live channel 3
and cached value 7 whose remote unsubscribe request succeeds: the call
panics (`BorrowMutError` from `replace_with` under the still-live `Ref`)
and the subscription marker is never cleared, although the source's own
`and_then` closure plainly intends to clear it and return `Ok`. The
failure paths behave atomically as the claim states: a failed remote
unsubscribe leaves the marker set, unsubscribing with no subscription is
a trivial success, a failed channel open in `subscribe` leaves the marker
unset, and a failed forced `get_data` refresh keeps the previously cached
value, which a later `get_data(force=false)` still serves. -/
theorem C10_unsubscribe_success_panics_marker_never_cleared :
    Handle.unsubscribe (Handle.mk 5 "Markets" (some 3) (some 7))
        (fun _ => Except.ok ())
      = (UnsubOutcome.panic, Handle.mk 5 "Markets" (some 3) (some 7))
    ∧ Handle.unsubscribe (Handle.mk 5 "Markets" (some 3) (some 7))
        (fun _ => Except.error 9)
      = (UnsubOutcome.err 9, Handle.mk 5 "Markets" (some 3) (some 7))
    ∧ Handle.unsubscribe (Handle.mk 5 "Markets" none (some 7))
        (fun _ => Except.ok ())
      = (UnsubOutcome.ok, Handle.mk 5 "Markets" none (some 7))
    ∧ (Handle.subscribe (Handle.mk 5 "Markets" none (some 7))
        (Except.error 9)).2.subscription = none
    ∧ ((Handle.mk 5 "Markets" (some 3) (some 7)).get_data
        (Except.error (DriftError.ClientError 9)) true).handle
      = Handle.mk 5 "Markets" (some 3) (some 7)
    ∧ (((Handle.mk 5 "Markets" (some 3) (some 7)).get_data
        (Except.error (DriftError.ClientError 9)) true).handle.get_data
        (Except.error (DriftError.ClientError 9)) false).result
      = Outcome.ok 7 := by
  exact ⟨rfl, rfl, rfl, rfl, rfl, rfl⟩

/-- Payload of a pushed account notification
(`response.value.data : UiAccountData`): either base64-tagged binary data
(carrying the still-encoded raw text, modelled as bytes) or another
encoding. -/
inductive UiAccountData
  | binaryBase64 (raw : Bytes)
  | other
deriving DecidableEq, Repr

/-- One `rx.recv()` outcome on the push channel: a delivered response or a
receive error. -/
inductive RecvEvent
  | ok (data : UiAccountData)
  | err (cause : Nat)
deriving DecidableEq, Repr

/-- Observable trace of the background thread spawned by `ws_sub`:
the values passed to the consumer in order, the number of decode failures
logged, the number of messages received from the channel, whether the
thread panicked, and every write the thread performs to the handle's
cached slot. -/
structure ThreadTrace (T : Type) where
  consumerCalls : List T
  decodeErrors : Nat
  recvCount : Nat
  panicked : Bool
  cacheWrites : List T
deriving DecidableEq, Repr

/-- Embedding of the thread body spawned by
`WebSocketAccountSubscriber::ws_sub` (src/rust-sdk/src/sdk_core/account.rs,
lines 371-397; identical in src/rust-sdk/src/default.rs, lines 326-354),
run against the channel's delivered events in order. The closure captures
only the consumer and the diagnostic name — it has no access to the
handle's cached slot, so `cacheWrites` is always empty. Every arm of the
`loop` body ends in `return`: on a received response the body decodes
base64 (`unwrap` — panics on invalid base64), runs `T::try_deserialize`
once (invoking the consumer on success, logging on failure) and then
returns; on a receive error it logs and returns. Hence at most the first
event is ever processed. -/
def ws_sub_thread {T : Type} (b64 : Bytes → Option Bytes)
    (try_deserialize : Bytes → Except Nat T) (events : List RecvEvent) :
    ThreadTrace T :=
  match events with
  | [] => ⟨[], 0, 0, false, []⟩
  | ev :: _ =>
    match ev with
    | .err _ => ⟨[], 0, 1, false, []⟩
    | .ok .other => ⟨[], 0, 1, false, []⟩
    | .ok (.binaryBase64 raw) =>
      match b64 raw with
      | none => ⟨[], 0, 1, true, []⟩
      | some bs =>
        match try_deserialize bs with
        | .ok t => ⟨[t], 0, 1, false, []⟩
        | .error _ => ⟨[], 1, 1, false, []⟩

/-- Example base64 decoding for concrete runs: every pushed text decodes
to itself. -/
def b64_exact : Bytes → Option Bytes := fun raw => some raw

/-- Example discriminator-checked decoder for concrete runs: only the
payload `[42]` carries the expected discriminator and decodes (to `42`);
anything else fails. -/
def try_deserialize_nat : Bytes → Except Nat Nat := fun b =>
  match b with
  | [42] => .ok 42
  | _ => .error 1

/-- C1 counterexample: on a subscribed handle caching 7, a pushed message
decoding to 42 invokes the consumer with 42, yet the thread performs no
write to the cached slot, and a later `get_data(force=false)` still
returns the old 7 (without a network read) rather than the pushed 42 —
the claim that every successfully decoded push overwrites the cached
value is false. -/
theorem C1_counterexample_push_does_not_update_cache :
    (ws_sub_thread b64_exact try_deserialize_nat
        [RecvEvent.ok (UiAccountData.binaryBase64 [42])]).consumerCalls = [42]
    ∧ (ws_sub_thread b64_exact try_deserialize_nat
        [RecvEvent.ok (UiAccountData.binaryBase64 [42])]).cacheWrites = []
    ∧ ((Handle.mk 5 "State" (some 1) (some 7)).get_data
        (Except.ok 42) false).result = Outcome.ok 7
    ∧ ((Handle.mk 5 "State" (some 1) (some 7)).get_data
        (Except.ok 42) false).reads = 0
    ∧ Outcome.ok 7 ≠ Outcome.ok (42 : Nat) := by
  refine ⟨rfl, rfl, rfl, rfl, by decide⟩

/-- C1 amended: a first pushed message that decodes successfully invokes
the registered consumer with the decoded record, but the subscription
thread never writes the handle's cached slot, so a later
`get_data(force=false)` serves the previously cached value unchanged. -/
theorem C1_push_invokes_consumer_never_writes_cache {T : Type}
    (b64 : Bytes → Option Bytes) (try_de : Bytes → Except Nat T)
    (raw bs : Bytes) (t : T) (rest : List RecvEvent)
    (h1 : b64 raw = some bs) (h2 : try_de bs = Except.ok t) :
    (ws_sub_thread b64 try_de
        (RecvEvent.ok (UiAccountData.binaryBase64 raw) :: rest)).consumerCalls = [t]
    ∧ (∀ events : List RecvEvent,
        (ws_sub_thread b64 try_de events).cacheWrites = [])
    ∧ (∀ (h : Handle T) (v : T) (c : Except DriftError T), h.data = some v →
        (h.get_data c false).result = Outcome.ok v
        ∧ (h.get_data c false).reads = 0) := by
  refine ⟨?_, ?_, ?_⟩
  · unfold ws_sub_thread
    simp [h1, h2]
  · intro events
    rcases events with _ | ⟨ev, rest2⟩
    · rfl
    · rcases ev with d | c
      · rcases d with raw2 | _
        · cases hb : b64 raw2 with
          | none => simp [ws_sub_thread, hb]
          | some bs2 => cases hd : try_de bs2 <;> simp [ws_sub_thread, hb, hd]
        · rfl
      · rfl
  · intro h v c hv
    unfold Handle.get_data
    simp [hv]

/-- Witness for C1 amended at the concrete decoders: a push of `[42]`
invokes the consumer with 42 and a cached 7 is still served afterwards. -/
theorem C1_push_invokes_consumer_never_writes_cache_witness :
    (ws_sub_thread b64_exact try_deserialize_nat
        [RecvEvent.ok (UiAccountData.binaryBase64 [42])]).consumerCalls = [42]
    ∧ ((Handle.mk 6 "Markets" (some 1) (some 7)).get_data
        (Except.error (DriftError.ClientError 9)) false).result = Outcome.ok 7 := by
  have h := C1_push_invokes_consumer_never_writes_cache b64_exact
    try_deserialize_nat [42] [42] 42 [] rfl rfl
  exact ⟨h.1, (h.2.2 (Handle.mk 6 "Markets" (some 1) (some 7)) 7
    (Except.error (DriftError.ClientError 9)) rfl).1⟩

/-- C3: evaluation of the receive loop at the failing input — a push with
a mismatched discriminator (`[9]`) followed by a valid push (`[42]`). The
decode failure is indeed only logged (one decode error, no cache write,
no panic), but the thread's `loop` body returns after the first message:
only one message is ever received and the subsequent valid push never
invokes the consumer, contradicting the claim that the receive loop
survives and the next valid push still updates. -/
theorem C3_receive_loop_dies_after_first_message :
    ws_sub_thread b64_exact try_deserialize_nat
        [RecvEvent.ok (UiAccountData.binaryBase64 [9]),
         RecvEvent.ok (UiAccountData.binaryBase64 [42])]
      = ⟨[], 1, 1, false, []⟩ := rfl

/-- Modelled from the spec: the root configuration (`State`) record of the
external `clearing_house` crate (spec section 6: funds-custody address and
authority, reserve-custody address and authority, a whitelist mint, a
market-list address and the six history-log addresses). Only the
address-valued fields the sdk reads are modelled; field names follow the
Rust struct. -/
structure State where
  collateral_vault : Pubkey
  collateral_vault_authority : Pubkey
  insurance_vault : Pubkey
  insurance_vault_authority : Pubkey
  whitelist_mint : Pubkey
  markets : Pubkey
  trade_history : Pubkey
  deposit_history : Pubkey
  funding_payment_history : Pubkey
  funding_rate_history : Pubkey
  liquidation_history : Pubkey
  curve_history : Pubkey
deriving DecidableEq, Repr

/-- Embedding of `WebSocketAccountSubscriber::<T>::new`
(src/rust-sdk/src/sdk_core/account.rs, lines 347-360): a fresh handle with
no subscription and an empty cache. -/
def WebSocketAccountSubscriber.new {T : Type} (pubkey : Pubkey)
    (name : String) : Handle T :=
  ⟨pubkey, name, none, none⟩

/-- The eight account cache handles owned by `DefaultClearingHouseAccount`
(src/rust-sdk/src/sdk_core/account.rs, lines 56-66). The decoded record
types live in the external crate; the handles' binding data (address,
label, cache, subscription) is what the claims concern, so each is a
`Handle Unit`. -/
structure DefaultClearingHouseAccount where
  state : Handle Unit
  markets : Handle Unit
  trade_history : Handle Unit
  deposit_history : Handle Unit
  funding_payment_history : Handle Unit
  funding_rate_history : Handle Unit
  curve_history : Handle Unit
  liquidation_history : Handle Unit
deriving DecidableEq, Repr

/-- Embedding of `DefaultClearingHouseAccount::new`
(src/rust-sdk/src/sdk_core/account.rs, lines 69-131; identical bindings in
src/rust-sdk/src/default.rs, lines 61-84). The state handle gets the
derived state address; every other handle gets an address read from the
fetched `State` record. Note: the source passes
`state_data.funding_payment_history` to the handle labelled
"FundingRateHistory" (account.rs line 104 / default.rs line 70). The
derived state address and the fetched state record are parameters. -/
def DefaultClearingHouseAccount.new (state_pubkey : Pubkey)
    (state_data : State) : DefaultClearingHouseAccount where
  state := WebSocketAccountSubscriber.new state_pubkey "State"
  markets := WebSocketAccountSubscriber.new state_data.markets "Markets"
  trade_history :=
    WebSocketAccountSubscriber.new state_data.trade_history "TradeHistory"
  deposit_history :=
    WebSocketAccountSubscriber.new state_data.deposit_history "DepositHistory"
  funding_payment_history :=
    WebSocketAccountSubscriber.new state_data.funding_payment_history
      "FundingPaymentHistory"
  funding_rate_history :=
    WebSocketAccountSubscriber.new state_data.funding_payment_history
      "FundingRateHistory"
  curve_history :=
    WebSocketAccountSubscriber.new state_data.curve_history "CurveHistory"
  liquidation_history :=
    WebSocketAccountSubscriber.new state_data.liquidation_history
      "LiquidationHistory"

/-- A concrete `State` record with pairwise distinct addresses. -/
def exState : State :=
  ⟨1, 2, 3, 4, 0, 5, 6, 7, 8, 9, 10, 11⟩

/-- C2: evaluation of the facade constructor at a state record whose
funding-rate-history address (9) differs from its funding-payment-history
address (8): the handle labelled "FundingRateHistory" is bound to the
funding-payment-history address, contradicting the claim; all other
handles are bound to their own account type's address. -/
theorem C2_funding_rate_history_bound_to_wrong_address :
    (DefaultClearingHouseAccount.new 99 exState).funding_rate_history.pubkey
        = exState.funding_payment_history
    ∧ (DefaultClearingHouseAccount.new 99 exState).funding_rate_history.pubkey
        ≠ exState.funding_rate_history
    ∧ (DefaultClearingHouseAccount.new 99 exState).markets.pubkey
        = exState.markets
    ∧ (DefaultClearingHouseAccount.new 99 exState).trade_history.pubkey
        = exState.trade_history
    ∧ (DefaultClearingHouseAccount.new 99 exState).deposit_history.pubkey
        = exState.deposit_history
    ∧ (DefaultClearingHouseAccount.new 99 exState).funding_payment_history.pubkey
        = exState.funding_payment_history
    ∧ (DefaultClearingHouseAccount.new 99 exState).liquidation_history.pubkey
        = exState.liquidation_history
    ∧ (DefaultClearingHouseAccount.new 99 exState).curve_history.pubkey
        = exState.curve_history := by
  exact ⟨rfl, by decide, rfl, rfl, rfl, rfl, rfl, rfl⟩

/-- Modelled from the spec: the AMM sub-record of a market slot, exposing
the price-reference (oracle) address (spec section 6). The record type
lives in the external clearing_house crate. -/
structure Amm where
  oracle : Pubkey
deriving DecidableEq, Repr

/-- Modelled from the spec: one slot of the market-list record, exposing an
initialized flag and the AMM with its price-reference address (spec
section 6). -/
structure Market where
  initialized : Bool
  amm : Amm
deriving DecidableEq, Repr

/-- Modelled from the spec: the market-list record, indexed by market slot
(64 slots on a freshly initialized list, spec section 8; the repository's
test asserts `64 == markets.markets.len()`). -/
structure Markets where
  markets : List Market
deriving DecidableEq, Repr

/-- Modelled from the spec: `Markets::index_from_u64` of the external
clearing_house crate, used by the sdk as the slot index. It is the plain
u64-to-usize numeric conversion; it contains no bounds logic of its own. -/
def Markets.index_from_u64 (market_index : Nat) : Nat := market_index

/-- The market-slot access `markets[Markets::index_from_u64(market_index)]`
as written in `send_open_position` / `send_close_position`
(src/rust-sdk/src/sdk_core/user.rs, lines 323-326 and 363-366) and
`send_initialize_clearing_market` (src/rust-sdk/src/sdk_core/admin.rs,
line 194): a plain Rust array index, which panics when the index is out of
bounds and is preceded by no bounds check. -/
def market_slot_read (m : Markets) (market_index : Nat) : Outcome Market :=
  if h : Markets.index_from_u64 market_index < m.markets.length then
    .ok (m.markets.get ⟨Markets.index_from_u64 market_index, h⟩)
  else
    .panic

/-- The oracle resolution step of `send_open_position`
(src/rust-sdk/src/sdk_core/user.rs, lines 323-326): read the slot for the
caller-supplied market index and take its AMM's oracle address. -/
def send_open_position_oracle (m : Markets) (market_index : Nat) :
    Outcome Pubkey :=
  match market_slot_read m market_index with
  | .ok slot => .ok slot.amm.oracle
  | .err e => .err e
  | .panic => .panic

/-- The initialized-flag read of `send_initialize_clearing_market`
(src/rust-sdk/src/sdk_core/admin.rs, line 194). -/
def market_initialized_read (m : Markets) (market_index : Nat) :
    Outcome Bool :=
  match market_slot_read m market_index with
  | .ok slot => .ok slot.initialized
  | .err e => .err e
  | .panic => .panic

/-- A freshly initialized market list: 64 uninitialized slots. -/
def mkts64 : Markets :=
  ⟨List.replicate 64 ⟨false, ⟨0⟩⟩⟩

/-- C6 counterexample: on a 64-slot market list, market index 64 makes the
open-position builder's slot access panic (array index out of bounds)
instead of being rejected with a structured `InvalidMarketIndex` error —
indeed `DriftError` (src/rust-sdk/src/sdk_core/error.rs) has no such
variant at all. The admin initialize-market path panics identically. -/
theorem C6_counterexample_index_64_panics :
    send_open_position_oracle mkts64 64 = Outcome.panic
    ∧ market_initialized_read mkts64 64 = Outcome.panic := by
  constructor <;> rfl

/-- C6 amended: market-index-to-slot resolution performs no bounds check:
an in-range index resolves directly to the slot (and its oracle), an
out-of-range index panics with an array index out of bounds in the
open-position and initialize-market builders, and the resolution never
produces any structured `DriftError` (in particular no
`InvalidMarketIndex`, which does not exist in the error enum). -/
theorem C6_market_index_resolution_unchecked (m : Markets) (i : Nat) :
    (∀ h : i < m.markets.length,
      market_slot_read m i = Outcome.ok (m.markets.get ⟨i, h⟩)
      ∧ send_open_position_oracle m i
          = Outcome.ok ((m.markets.get ⟨i, h⟩).amm.oracle))
    ∧ (m.markets.length ≤ i →
        market_slot_read m i = Outcome.panic
        ∧ send_open_position_oracle m i = Outcome.panic
        ∧ market_initialized_read m i = Outcome.panic)
    ∧ (∀ e : DriftError, market_slot_read m i ≠ Outcome.err e) := by
  unfold send_open_position_oracle market_initialized_read market_slot_read
    Markets.index_from_u64
  refine ⟨?_, ?_, ?_⟩
  · intro h
    simp [h]
  · intro h
    simp [Nat.not_lt_of_le h]
  · intro e
    split <;> simp

/-- Witness for C6 amended on the 64-slot list: index 0 resolves to the
first slot, index 65 panics. -/
theorem C6_market_index_resolution_unchecked_witness :
    market_slot_read mkts64 0 = Outcome.ok ⟨false, ⟨0⟩⟩
    ∧ mkts64.markets.length ≤ 65
    ∧ send_open_position_oracle mkts64 65 = Outcome.panic := by
  have h0 := (C6_market_index_resolution_unchecked mkts64 0).1 (by decide)
  have h65 := (C6_market_index_resolution_unchecked mkts64 65).2.1 (by decide)
  exact ⟨h0.1, by decide, h65.2.1⟩

/-- One entry of an operation's resolved account list. -/
structure AccountMeta where
  pubkey : Pubkey
  is_signer : Bool
  is_writable : Bool
deriving DecidableEq, Repr

/-- The named account list of the initialize-user operation
(`accounts::InitializeUser`, filled in src/rust-sdk/src/sdk_core/user.rs,
lines 167-174). The external anchor derive fixes the wire order and
signer/writable flags; the sdk supplies these named addresses. -/
structure InitializeUserAccounts where
  user : Pubkey
  state : Pubkey
  user_positions : Pubkey
  authority : Pubkey
  rent : Pubkey
  system_program : Pubkey
deriving DecidableEq, Repr

/-- The named account list of the deposit-collateral operation
(`accounts::DepositCollateral`, filled in
src/rust-sdk/src/sdk_core/user.rs, lines 197-208). -/
structure DepositCollateralAccounts where
  state : Pubkey
  user : Pubkey
  authority : Pubkey
  collateral_vault : Pubkey
  user_collateral_account : Pubkey
  token_program : Pubkey
  markets : Pubkey
  user_positions : Pubkey
  funding_payment_history : Pubkey
  deposit_history : Pubkey
deriving DecidableEq, Repr

/-- The account-list part of an operation, tagged by which builder made it
(plus the `remaining_accounts` appended by `Context::to_account_metas`,
src/rust-sdk/src/sdk_core/util.rs, lines 108-116). -/
inductive IxAccounts
  | forInitUser (a : InitializeUserAccounts) (remaining : List AccountMeta)
  | forDepositCollateral (a : DepositCollateralAccounts)
      (remaining : List AccountMeta)
deriving DecidableEq, Repr

/-- The argument payload of an operation (`InstructionData`). -/
inductive IxData
  | InitializeUserArgs (user_nonce : Nat) (whitelist_token : Bool)
  | DepositCollateralArgs (amount : Nat)
deriving DecidableEq, Repr

/-- One well-formed operation (`solana_sdk::instruction::Instruction` as
assembled by `util::ix`, src/rust-sdk/src/sdk_core/util.rs, lines
94-100). -/
structure Instruction where
  program_id : Pubkey
  accounts : IxAccounts
  data : IxData
deriving DecidableEq, Repr

/-- The submission built by the transaction composer
(`Transaction::new_signed_with_payer` plus the surrounding signer and
blockhash plumbing): the signer list in order, the fee payer, the
operations in order, and the freshly fetched anti-replay blockhash. -/
structure Submission where
  signers : List Pubkey
  fee_payer : Pubkey
  instructions : List Instruction
  recent_blockhash : Nat
deriving DecidableEq, Repr

/-- Embedding of `ClearingHouse::send_tx`
(src/rust-sdk/src/sdk_core/mod.rs, lines 21-33): the signer list is
`vec![wallet]` extended with the additional signers (wallet first), the
fee payer is the wallet, the operations are passed through exactly as
given, and the blockhash is fetched immediately before building
(parameter). -/
def send_tx (wallet_pubkey : Pubkey) (additional_signers : List Pubkey)
    (ixs : List Instruction) (latest_blockhash : Nat) : Submission :=
  ⟨wallet_pubkey :: additional_signers, wallet_pubkey, ixs, latest_blockhash⟩

/-- Embedding of the older `ClearingHouse::send_tx`
(src/rust-sdk/src/clearing_house.rs, lines 38-51): the caller's signer
list is kept and the wallet is pushed at its END (`signers.push(wallet)`);
the fee payer is still the wallet and the operations pass through as
given. -/
def send_tx_legacy (wallet_pubkey : Pubkey) (signers : List Pubkey)
    (ixs : List Instruction) (latest_blockhash : Nat) : Submission :=
  ⟨signers ++ [wallet_pubkey], wallet_pubkey, ixs, latest_blockhash⟩

/-- C8 counterexample: the clearing_house.rs composer called with wallet 1
and additional signer 2 produces the signer list `[2, 1]` — the primary
wallet is the last signer, not prepended as the first. -/
theorem C8_counterexample_legacy_wallet_not_first :
    (send_tx_legacy 1 [2] [] 0).signers = [2, 1]
    ∧ (send_tx_legacy 1 [2] [] 0).signers.head? ≠ some 1 := by
  exact ⟨rfl, by decide⟩

/-- C8 amended: the sdk_core composer prepends the primary wallet as the
first signer; the older clearing_house.rs composer instead appends it as
the last signer; both set the wallet as fee payer and preserve the
caller's operation order exactly. -/
theorem C8_send_tx_signers_and_order (w : Pubkey) (adds : List Pubkey)
    (ixs : List Instruction) (hash : Nat) :
    (send_tx w adds ixs hash).signers.head? = some w
    ∧ (send_tx w adds ixs hash).signers = w :: adds
    ∧ (send_tx w adds ixs hash).fee_payer = w
    ∧ (send_tx w adds ixs hash).instructions = ixs
    ∧ (send_tx_legacy w adds ixs hash).signers = adds ++ [w]
    ∧ (send_tx_legacy w adds ixs hash).fee_payer = w
    ∧ (send_tx_legacy w adds ixs hash).instructions = ixs := by
  exact ⟨rfl, rfl, rfl, rfl, rfl, rfl, rfl⟩

/-- `Pubkey::default()`: the all-zero address. -/
def PUBKEY_DEFAULT : Pubkey := 0

/-- The rent sysvar address (external constant, opaque). -/
def RENT_ID : Pubkey := 201

/-- The system program address (external constant, opaque). -/
def SYSTEM_PROGRAM_ID : Pubkey := 202

/-- The SPL token program address (external constant, opaque). -/
def TOKEN_PROGRAM_ID : Pubkey := 203

/-- A signing identity; only its address is observable here. -/
structure Keypair where
  pubkey : Pubkey
deriving DecidableEq, Repr

/-- Supply of fresh signing identities; `Keypair::new` draws the next
one. -/
structure KeyGen where
  counter : Nat
deriving DecidableEq, Repr

/-- `Keypair::new` modelled as drawing from the fresh-identity supply. -/
def KeyGen.fresh (g : KeyGen) : Keypair × KeyGen :=
  (⟨g.counter⟩, ⟨g.counter + 1⟩)

/-- Modelled from the spec: the per-user record of the external
clearing_house crate, exposing a positions-list address and a numeric
collateral balance (spec section 6). -/
structure UserRecord where
  positions : Pubkey
  collateral : Nat
deriving DecidableEq, Repr

/-- Embedding of `ClearingHouseUser::user_account`
(src/rust-sdk/src/sdk_core/user.rs, lines 128-135): if `force` is set or
nothing is cached, the typed remote read runs and its result is
`.unwrap()`ed — a transport or decode failure panics instead of being
returned, despite the `DriftResult` signature; on success the cache is
replaced and the value returned. Returns the call outcome and the cache
afterwards. -/
def user_account (client_read : Except DriftError UserRecord)
    (cache : Option UserRecord) (force : Bool) :
    Outcome UserRecord × Option UserRecord :=
  if force || cache.isNone then
    match client_read with
    | .ok u => (.ok u, some u)
    | .error _ => (.panic, cache)
  else
    match cache with
    | some u => (.ok u, some u)
    | none => (.panic, cache)

/-- The inputs a `ClearingHouseUser` facade has in scope when building
user operations: its program id and wallet, the derived user address and
nonce, the state and markets handle addresses, the cached state read
(`state().get_account_data(false)`), the externally derived associated
whitelist token address, and the blockhash fetched by `send_tx`. -/
structure UserEnv where
  program_id : Pubkey
  wallet_pubkey : Pubkey
  user_pubkey : Pubkey
  user_nonce : Nat
  state_handle_pubkey : Pubkey
  markets_handle_pubkey : Pubkey
  state_read : Except DriftError State
  whitelist_assoc_token : Pubkey
  latest_blockhash : Nat

/-- Embedding of `ClearingHouseUser::initialize_user_ix`
(src/rust-sdk/src/sdk_core/user.rs, lines 139-179): read the cached state
(`?` propagates a failure before any identity is generated); when the
state's whitelist mint is set, flag `whitelist_token` and append the
associated token account to the remaining accounts — flag and account are
set together from the same input; generate the new user-positions signing
identity exactly once; return it with the derived user address and the
assembled operation. -/
def initialize_user_ix (env : UserEnv) (g : KeyGen) :
    Except DriftError (Keypair × Pubkey × Instruction) × KeyGen :=
  match env.state_read with
  | .error e => (.error e, g)
  | .ok st =>
    let whitelist_token : Bool := st.whitelist_mint != PUBKEY_DEFAULT
    let remaining : List AccountMeta :=
      if whitelist_token then [⟨env.whitelist_assoc_token, false, false⟩]
      else []
    let fr := g.fresh
    (.ok (fr.1, env.user_pubkey,
      ⟨env.program_id,
        .forInitUser
          ⟨env.user_pubkey, env.state_handle_pubkey, fr.1.pubkey,
            env.wallet_pubkey, RENT_ID, SYSTEM_PROGRAM_ID⟩ remaining,
        .InitializeUserArgs env.user_nonce whitelist_token⟩), fr.2)

/-- Embedding of `ClearingHouseUser::deposit_collateral_ix`
(src/rust-sdk/src/sdk_core/user.rs, lines 181-213): read the cached state
(`?`); resolve the user-positions address from the caller's optional
argument, falling back to `user_account(false)?.positions` (which can
panic, see `user_account`); assemble the deposit operation with no
remaining accounts. -/
def deposit_collateral_ix (env : UserEnv)
    (user_client_read : Except DriftError UserRecord)
    (user_cache : Option UserRecord) (amount : Nat)
    (collateral_acc_pub : Pubkey) (user_pos_acc_pub : Option Pubkey) :
    Outcome Instruction :=
  match env.state_read with
  | .error e => .err e
  | .ok st =>
    let user_pos : Outcome Pubkey :=
      match user_pos_acc_pub with
      | some p => .ok p
      | none =>
        match (user_account user_client_read user_cache false).1 with
        | .ok u => .ok u.positions
        | .err e => .err e
        | .panic => .panic
    match user_pos with
    | .err e => .err e
    | .panic => .panic
    | .ok upos =>
      .ok ⟨env.program_id,
        .forDepositCollateral
          ⟨env.state_handle_pubkey, env.user_pubkey, env.wallet_pubkey,
            st.collateral_vault, collateral_acc_pub, TOKEN_PROGRAM_ID,
            env.markets_handle_pubkey, upos, st.funding_payment_history,
            st.deposit_history⟩ [],
        .DepositCollateralArgs amount⟩

/-- Embedding of
`ClearingHouseUser::send_initialize_user_account_and_deposit_collateral`
(src/rust-sdk/src/sdk_core/user.rs, lines 413-423): build the
initialize-user operation (generating the new identity), pass the new
identity's address as the user-positions account of the deposit builder,
and submit both operations in one `send_tx` call co-signed by the new
identity. -/
def send_initialize_user_account_and_deposit_collateral (env : UserEnv)
    (g : KeyGen) (user_client_read : Except DriftError UserRecord)
    (user_cache : Option UserRecord) (amount : Nat)
    (collateral_acc_pub : Pubkey) : Outcome (Submission × Pubkey) × KeyGen :=
  match initialize_user_ix env g with
  | (.error e, g1) => (.err e, g1)
  | (.ok (user_pos_acc, user_acc_pub, init_user_acc_ix), g1) =>
    match deposit_collateral_ix env user_client_read user_cache amount
        collateral_acc_pub (some user_pos_acc.pubkey) with
    | .err e => (.err e, g1)
    | .panic => (.panic, g1)
    | .ok deposit_coll_ix =>
      (.ok (send_tx env.wallet_pubkey [user_pos_acc.pubkey]
          [init_user_acc_ix, deposit_coll_ix] env.latest_blockhash,
        user_acc_pub), g1)

/-- C7: the combined create-and-fund action generates the new signing
identity exactly once (the supply advances by one), wires its address
into the deposit operation's user-positions account, and issues one
submission holding the initialize-user operation followed by the deposit
operation, with the wallet as fee payer and the new identity co-signing
that same submission. -/
theorem C7_create_and_fund_single_submission (env : UserEnv) (g : KeyGen)
    (ur : Except DriftError UserRecord) (uc : Option UserRecord)
    (amount : Nat) (coll : Pubkey) (st : State)
    (hst : env.state_read = Except.ok st) :
    ∃ s : Submission,
      (send_initialize_user_account_and_deposit_collateral env g ur uc
          amount coll).1 = Outcome.ok (s, env.user_pubkey)
      ∧ (send_initialize_user_account_and_deposit_collateral env g ur uc
          amount coll).2.counter = g.counter + 1
      ∧ s.signers = [env.wallet_pubkey, g.counter]
      ∧ s.fee_payer = env.wallet_pubkey
      ∧ ∃ (remaining : List AccountMeta) (wl : Bool),
          s.instructions =
            [⟨env.program_id,
                .forInitUser
                  ⟨env.user_pubkey, env.state_handle_pubkey, g.counter,
                    env.wallet_pubkey, RENT_ID, SYSTEM_PROGRAM_ID⟩ remaining,
                .InitializeUserArgs env.user_nonce wl⟩,
             ⟨env.program_id,
                .forDepositCollateral
                  ⟨env.state_handle_pubkey, env.user_pubkey,
                    env.wallet_pubkey, st.collateral_vault, coll,
                    TOKEN_PROGRAM_ID, env.markets_handle_pubkey, g.counter,
                    st.funding_payment_history, st.deposit_history⟩ [],
                .DepositCollateralArgs amount⟩] := by
  simp only [send_initialize_user_account_and_deposit_collateral,
    initialize_user_ix, deposit_collateral_ix, send_tx, KeyGen.fresh, hst]
  exact ⟨_, rfl, trivial, rfl, rfl, _, _, rfl⟩

/-- A concrete facade environment for witnesses: wallet 1, derived user
address 2, state handle 4, markets handle 5, cached state `exState`. -/
def envEx : UserEnv :=
  ⟨0, 1, 2, 3, 4, 5, Except.ok exState, 6, 7⟩

/-- Witness for C7 at the concrete environment and supply counter 100: the
action yields one submission signed by wallet 1 and fresh identity 100. -/
theorem C7_create_and_fund_single_submission_witness :
    ∃ s : Submission,
      (send_initialize_user_account_and_deposit_collateral envEx ⟨100⟩
          (Except.ok ⟨0, 0⟩) none 50 8).1 = Outcome.ok (s, 2)
      ∧ s.signers = [1, 100] := by
  obtain ⟨s, h1, _, h3, _⟩ := C7_create_and_fund_single_submission envEx
    ⟨100⟩ (Except.ok ⟨0, 0⟩) none 50 8 exState rfl
  exact ⟨s, h1, h3⟩

/-- Embedding of one arm of `ClearingHouseAccount::subscribe` on the
facade (src/rust-sdk/src/sdk_core/account.rs, lines 149-154, and the
seven parallel arms through line 205; same in src/rust-sdk/src/default.rs,
lines 102-163): when the handle is not yet subscribed the handle-level
subscribe result is `.unwrap()`ed, so a failure to open the push channel
panics instead of surfacing a structured error. -/
def facade_subscribe {T : Type} (h : Handle T) (ws_open : Except Nat Nat) :
    Outcome Unit × Handle T :=
  if h.is_subscribed then (.ok (), h)
  else
    match ws_open with
    | .ok sub => (.ok (), { h with subscription := some sub })
    | .error _ => (.panic, h)

/-- C9 counterexample: a transport failure during the (uncached)
user-account read panics instead of returning a structured error, and a
failure to open the push channel in the facade's subscribe panics as
well. -/
theorem C9_counterexample_expected_failures_panic :
    (user_account (Except.error (DriftError.ClientError 5)) none false).1
        = Outcome.panic
    ∧ (facade_subscribe (Handle.mk 5 "State" none none : Handle Unit)
        (Except.error 9)).1 = Outcome.panic := by
  exact ⟨rfl, rfl⟩

/-- C9 amended: of the cited failure modes, only the discriminator
mismatch on a pushed message is handled structurally (logged and dropped,
no crash); a transport failure during the user-account read and a failure
to open the push channel in the facade's subscribe both panic (`unwrap`),
and a pushed payload that is not valid base64 panics the delivery
thread. -/
theorem C9_expected_failure_modes {T : Type} (e : DriftError) (c : Nat)
    (cache : Option UserRecord) (force : Bool) (h : Handle T)
    (raw : Bytes) (b64 : Bytes → Option Bytes)
    (try_de : Bytes → Except Nat T) (rest : List RecvEvent) :
    ((force || cache.isNone) = true →
      user_account (Except.error e) cache force = (Outcome.panic, cache))
    ∧ (h.is_subscribed = false →
        facade_subscribe h (Except.error c) = (Outcome.panic, h))
    ∧ (∀ bs p, b64 raw = some bs → try_de bs = Except.error p →
        ws_sub_thread b64 try_de
            (RecvEvent.ok (UiAccountData.binaryBase64 raw) :: rest)
          = ⟨[], 1, 1, false, []⟩)
    ∧ (b64 raw = none →
        (ws_sub_thread b64 try_de
            (RecvEvent.ok (UiAccountData.binaryBase64 raw) :: rest)).panicked
          = true) := by
  refine ⟨?_, ?_, ?_, ?_⟩
  · intro hc
    unfold user_account
    simp [hc]
  · intro hs
    unfold facade_subscribe
    simp [hs]
  · intro bs p hb hd
    unfold ws_sub_thread
    simp [hb, hd]
  · intro hb
    unfold ws_sub_thread
    simp [hb]

/-- Witness for C9 at concrete data: a forced user-account read over a
failing transport panics while keeping the cache; a push of `[9]` through
the example decoders is logged and dropped without a crash. -/
theorem C9_expected_failure_modes_witness :
    user_account (Except.error (DriftError.ClientError 5))
        (some ⟨11, 12⟩) true = (Outcome.panic, some ⟨11, 12⟩)
    ∧ ws_sub_thread b64_exact try_deserialize_nat
        [RecvEvent.ok (UiAccountData.binaryBase64 [9])]
      = ⟨[], 1, 1, false, []⟩ := by
  have h := C9_expected_failure_modes (T := Nat)
    (DriftError.ClientError 5) 9 (some ⟨11, 12⟩) true
    (Handle.mk 5 "State" none none) [9] b64_exact try_deserialize_nat []
  exact ⟨h.1 rfl, h.2.2.1 [9] 1 rfl rfl⟩

end DriftSdk
